import Mathlib

/-!
Verification of the chat2qwen image-to-table pipeline.

This file gives a shallow embedding of the repository's Python code and
proves (or refutes) the specification claims about it.  External
collaborators (the hosted vision/language model, HTTP downloads, the
filesystem, PDF rasterization) are modelled as oracle functions supplied
through environment records; everything the repository itself computes is
embedded as executable Lean definitions.

The repository contains two near-duplicate chain implementations:
`chains/image_processing.py` at the top level (namespace `Chains` below)
and `src/chat2table/chains/image_processing.py` (namespace `Chat2Table`
below); both are embedded, along with the two `ModelConfig` variants, the
`main.py` / `run.py` helpers and the standalone `ImageRecognizer`.
-/

/-- Image binary data: a list of byte values, as produced by file reads,
HTTP downloads and PIL serialization. -/
def Bytes := List Nat
deriving DecidableEq, Repr

/-- The standard base64 alphabet, as used by Python's `base64.b64encode`. -/
def base64Alphabet : List Char :=
  [ 'A', 'B', 'C', 'D', 'E', 'F', 'G', 'H', 'I', 'J', 'K', 'L', 'M',
    'N', 'O', 'P', 'Q', 'R', 'S', 'T', 'U', 'V', 'W', 'X', 'Y', 'Z',
    'a', 'b', 'c', 'd', 'e', 'f', 'g', 'h', 'i', 'j', 'k', 'l', 'm',
    'n', 'o', 'p', 'q', 'r', 's', 't', 'u', 'v', 'w', 'x', 'y', 'z',
    '0', '1', '2', '3', '4', '5', '6', '7', '8', '9', '+', '/' ]

/-- The base64 digit for a 6-bit group. -/
def base64Char (n : Nat) : Char := base64Alphabet.getD n 'A'

/-- Base64-encode a byte list, three input bytes to four output
characters, padding the tail with `=` as `base64.b64encode` does. -/
def base64Chunks : List Nat → List Char
  | b1 :: b2 :: b3 :: rest =>
      let n := b1 * 65536 + b2 * 256 + b3
      base64Char (n / 262144 % 64) :: base64Char (n / 4096 % 64) ::
      base64Char (n / 64 % 64) :: base64Char (n % 64) :: base64Chunks rest
  | [b1, b2] =>
      let n := b1 * 1024 + b2 * 4
      [base64Char (n / 4096 % 64), base64Char (n / 64 % 64), base64Char (n % 64), '=']
  | [b1] =>
      let n := b1 * 16
      [base64Char (n / 64 % 64), base64Char (n % 64), '=', '=']
  | [] => []

/-- `ImageProcessingChain._encode_image`: base64-encode image bytes and
decode to a string (both variants share this helper verbatim). -/
def base64Encode (b : Bytes) : String := String.mk (base64Chunks b)

/-- A decoded `PIL.Image.Image` object.  The repository only ever
serializes such objects (`save(format='JPEG')` in the chat2table chain,
`save(format='PNG')` in `main.py`/`run.py`), so the model carries the two
serializations it can produce. -/
structure PILImage where
  jpeg : Bytes
  png : Bytes
deriving DecidableEq, Repr

/-- The run-time type of the `image_data` argument accepted by
`process_image` / `_convert_to_bytes`: a string, a `bytes` value, an
`io.BytesIO` buffer (constructor `buffer`), a `PIL.Image.Image`, or any
other Python object (constructor `other`, carrying the type name used in
the error message). -/
inductive ImageData where
  | str (s : String)
  | bytes (b : Bytes)
  | buffer (b : Bytes)
  | pil (img : PILImage)
  | other (tyName : String)
deriving DecidableEq, Repr

/-- `str.startswith(('http://', 'https://', 'file://'))`, the URL test
used by both chain variants before downloading. -/
def isSupportedUrl (s : String) : Bool :=
  s.startsWith "http://" || s.startsWith "https://" || s.startsWith "file://"

/-- The `Dict[str, Any]` result records returned by the pipeline.  Each
field is `none` when the corresponding key is absent from the dict;
`image_url` is doubly optional because the key, when present, may hold
Python `None`. -/
structure ResultDict where
  status : String
  image_url : Option (Option String) := none
  recognition_result : Option String := none
  analysis_result : Option String := none
  error : Option String := none
  image_count : Option Nat := none
  original_pdf : Option Bool := none
  page_number : Option Nat := none
deriving DecidableEq, Repr

/-- One call issued to a hosted model.  A `recognition` call carries the
base64-encoded image blocks of its single multimodal user message (the
fixed system prompt and `IMAGE_RECOGNITION_TEMPLATE` text block are
constants of the message and elided); an `analysis` call carries the
recognition text substituted into `ANALYSIS_TEMPLATE` (the fixed template
text around it is elided likewise). -/
inductive Call where
  | recognition (blocks : List String)
  | analysis (recognitionResult : String)
deriving DecidableEq, Repr

/-- Whether a call is a recognition-model call. -/
def Call.isRecognition : Call → Bool
  | .recognition _ => true
  | .analysis _ => false

/-- Whether a call is an analysis-model call. -/
def Call.isAnalysis : Call → Bool
  | .recognition _ => false
  | .analysis _ => true

/-- Oracle for the external world reached from the chains: HTTP download
of an image URL, the hosted recognition model and the hosted analysis
model.  Each may fail (`Except.error` is a raised exception carrying
`str(e)`); being functions, the oracles are deterministic. -/
structure Env where
  download : String → Except String Bytes
  recognitionOutcome : List String → Except String String
  analysisOutcome : String → Except String String

namespace Chains

/-- The input-normalization steps of `chains/image_processing.py`'s
`ImageProcessingChain.process_image` (lines 110-128): URL strings are
downloaded, other strings raise, `BytesIO` buffers are read out, `bytes`
pass through, and anything else raises `ValueError`. -/
def normalize (env : Env) : ImageData → Except String Bytes
  | .str s =>
      if isSupportedUrl s then env.download s
      else .error ("不支持的URL格式: " ++ s)
  | .buffer b => .ok b
  | .bytes b => .ok b
  | .pil _ => .error "不支持的图片数据类型: <class 'PIL.Image.Image'>"
  | .other tyName => .error ("不支持的图片数据类型: " ++ tyName)

/-- The `image_url` value stored in `process_image` result dicts:
`image_data if isinstance(image_data, str) else None`. -/
def urlOf : ImageData → Option String
  | .str s => some s
  | _ => none

/-- `ImageProcessingChain.process_image` of `chains/image_processing.py`:
normalize the input, invoke the recognition chain on the single image,
then the analysis chain on the recognition text; any exception is caught
and converted into an error dict.  Returns the result dict paired with
the trace of model calls issued.  The `stream` parameter is accepted and
ignored, exactly as in the source. -/
def process_image (env : Env) (image_data : ImageData) (stream : Bool := false) :
    ResultDict × List Call :=
  match Chains.normalize env image_data with
  | .error e =>
      ({ status := "error", image_url := some (Chains.urlOf image_data),
         error := some e }, [])
  | .ok image_bytes =>
      let blocks := [base64Encode image_bytes]
      match env.recognitionOutcome blocks with
      | .error e =>
          ({ status := "error", image_url := some (Chains.urlOf image_data),
             error := some e }, [.recognition blocks])
      | .ok recognition_result =>
          match env.analysisOutcome recognition_result with
          | .error e =>
              ({ status := "error", image_url := some (Chains.urlOf image_data),
                 error := some e },
               [.recognition blocks, .analysis recognition_result])
          | .ok analysis_result =>
              ({ status := "success",
                 image_url := some (Chains.urlOf image_data),
                 recognition_result := some recognition_result,
                 analysis_result := some analysis_result },
               [.recognition blocks, .analysis recognition_result])

/-- The per-image loop of `process_multiple_images` (lines 183-193):
process each image through `process_image`, skip error results
(`continue`), and collect the `recognition_result` of successful ones,
accumulating every call issued along the way. -/
def batchLoop (env : Env) (stream : Bool) :
    List ImageData → List String × List Call
  | [] => ([], [])
  | image_data :: rest =>
      let (r, calls) := Chains.process_image env image_data stream
      let (acc, calls') := Chains.batchLoop env stream rest
      if r.status = "error" then (acc, calls ++ calls')
      else (acc ++ [r.recognition_result.getD ""] , calls ++ calls')

/-- The combined recognition text built by `process_multiple_images`
(lines 198-202): `"\n\n=== 图片 {} ===\n{}".format("、".join(...), "\n\n".join(...))`. -/
def combineResults (results : List String) : String :=
  "\n\n=== 图片 " ++
  String.intercalate "、" ((List.range results.length).map (fun i => toString (i + 1))) ++
  " ===\n" ++
  String.intercalate "\n\n" results

/-- `ImageProcessingChain.process_multiple_images` of
`chains/image_processing.py` (lines 168-231): run `process_image` on every
item, skipping failures; raise (caught into an error dict) when no image
succeeded; otherwise merge the recognition texts and invoke the analysis
chain once more on the merged text. -/
def process_multiple_images (env : Env) (image_data_list : List ImageData)
    (stream : Bool := false) : ResultDict × List Call :=
  let (all_recognition_results, calls) := Chains.batchLoop env stream image_data_list
  if all_recognition_results = [] then
    ({ status := "error", error := some "没有成功处理任何图片" }, calls)
  else
    let combined := Chains.combineResults all_recognition_results
    match env.analysisOutcome combined with
    | .error e =>
        ({ status := "error", error := some e }, calls ++ [.analysis combined])
    | .ok analysis_result =>
        ({ status := "success",
           image_count := some image_data_list.length,
           recognition_result := some combined,
           analysis_result := some analysis_result },
         calls ++ [.analysis combined])

end Chains

namespace Chat2Table

/-- `ImageProcessingChain._convert_to_bytes` of
`src/chat2table/chains/image_processing.py` (lines 128-153): URL strings
are downloaded, other strings raise, `BytesIO` buffers are read out,
`bytes` pass through, `PIL.Image` objects are serialized as JPEG, and
anything else raises `ValueError`. -/
def convert_to_bytes (env : Env) : ImageData → Except String Bytes
  | .str s =>
      if isSupportedUrl s then env.download s
      else .error ("不支持的URL格式: " ++ s)
  | .buffer b => .ok b
  | .bytes b => .ok b
  | .pil img => .ok img.jpeg
  | .other tyName => .error ("不支持的图片数据类型: " ++ tyName)

/-- `ImageProcessingChain.process_image` of
`src/chat2table/chains/image_processing.py` (lines 155-210): convert the
input to bytes, invoke the recognition chain with a one-element image
list, then the analysis chain; any exception is caught and converted into
an error dict.  The `stream` parameter is accepted and ignored, exactly
as in the source. -/
def process_image (env : Env) (image_data : ImageData) (stream : Bool := false) :
    ResultDict × List Call :=
  match Chat2Table.convert_to_bytes env image_data with
  | .error e =>
      ({ status := "error", image_url := some (Chains.urlOf image_data),
         error := some e }, [])
  | .ok image_bytes =>
      let blocks := [base64Encode image_bytes]
      match env.recognitionOutcome blocks with
      | .error e =>
          ({ status := "error", image_url := some (Chains.urlOf image_data),
             error := some e }, [.recognition blocks])
      | .ok recognition_result =>
          match env.analysisOutcome recognition_result with
          | .error e =>
              ({ status := "error", image_url := some (Chains.urlOf image_data),
                 error := some e },
               [.recognition blocks, .analysis recognition_result])
          | .ok analysis_result =>
              ({ status := "success",
                 image_url := some (Chains.urlOf image_data),
                 recognition_result := some recognition_result,
                 analysis_result := some analysis_result },
               [.recognition blocks, .analysis recognition_result])

/-- The preparation loop of `process_multiple_images` (lines 222-231):
convert every image to bytes in order; the first conversion failure
raises out of the loop. -/
def convertLoop (env : Env) : List ImageData → Except String (List Bytes)
  | [] => .ok []
  | image_data :: rest =>
      match Chat2Table.convert_to_bytes env image_data with
      | .error e => .error e
      | .ok b =>
          match Chat2Table.convertLoop env rest with
          | .error e => .error e
          | .ok bs => .ok (b :: bs)

/-- `ImageProcessingChain.process_multiple_images` of
`src/chat2table/chains/image_processing.py` (lines 211-282): convert all
images to bytes, raise when none were produced, then invoke the
recognition chain once with every image block in a single multimodal
message and the analysis chain once on the resulting text; any exception
is caught and converted into an error dict. -/
def process_multiple_images (env : Env) (image_data_list : List ImageData)
    (stream : Bool := false) : ResultDict × List Call :=
  match Chat2Table.convertLoop env image_data_list with
  | .error e => ({ status := "error", error := some e }, [])
  | .ok processed_images =>
      if processed_images = [] then
        ({ status := "error", error := some "没有成功处理任何图片" }, [])
      else
        let blocks := processed_images.map base64Encode
        match env.recognitionOutcome blocks with
        | .error e =>
            ({ status := "error", error := some e }, [.recognition blocks])
        | .ok recognition_result =>
            match env.analysisOutcome recognition_result with
            | .error e =>
                ({ status := "error", error := some e },
                 [.recognition blocks, .analysis recognition_result])
            | .ok analysis_result =>
                ({ status := "success",
                   image_count := some image_data_list.length,
                   recognition_result := some recognition_result,
                   analysis_result := some analysis_result },
                 [.recognition blocks, .analysis recognition_result])

end Chat2Table

/-- Python truthiness of an optional string (`os.getenv` returns `None`
or a string; both `None` and `""` are falsy). -/
def pyTruthy : Option String → Bool
  | none => false
  | some s => s ≠ ""

/-- Python's `a or b` on optional strings, as in
`api_key or os.getenv("DASHSCOPE_API_KEY")`. -/
def pyOr (a b : Option String) : Option String :=
  if pyTruthy a then a else b

/-- The fields assigned by both `ModelConfig.__init__` variants.
`temperature` is a Python float modelled as a rational; `max_tokens` an
int. -/
structure ModelConfigData where
  api_key : String
  base_url : String
  recognition_model : String
  analysis_model : String
  temperature : ℚ
  max_tokens : Int
deriving DecidableEq, Repr

namespace Models

/-- `ModelConfig.__init__` of the top-level `models/config.py` (lines
8-34): resolve the key as `api_key or os.getenv("DASHSCOPE_API_KEY")`,
raise `ValueError` when the resolved key is falsy, then assign all
parameters without further validation.  `envKey` is the value of the
`DASHSCOPE_API_KEY` environment variable (`none` when unset).  No model
object is created and no call is issued here: `get_recognition_model` /
`get_analysis_model` are separate methods. -/
def init (api_key envKey : Option String)
    (base_url : String := "https://dashscope.aliyuncs.com/compatible-mode/v1")
    (recognition_model : String := "qwen-vl-max")
    (analysis_model : String := "qwen-max")
    (temperature : ℚ := 1/10) (max_tokens : Int := 2000) :
    Except String ModelConfigData :=
  let key := pyOr api_key envKey
  if pyTruthy key then
    .ok { api_key := key.getD "", base_url, recognition_model,
          analysis_model, temperature, max_tokens }
  else
    .error "API密钥未设置，请提供api_key参数或设置DASHSCOPE_API_KEY环境变量"

end Models

namespace Chat2TableConfig

/-- `ModelConfig.__init__` of `src/chat2table/models/config.py` (lines
12-44): run `_validate_api_key`, `_validate_url`, `_validate_models` and
`_validate_parameters` in that order, raising `ConfigError` on the first
violation, then assign the fields.  As above, no model object is created
here. -/
def init (api_key envKey : Option String)
    (base_url : String := "https://dashscope.aliyuncs.com/compatible-mode/v1")
    (recognition_model : String := "qwen-vl-max")
    (analysis_model : String := "qwen-max")
    (temperature : ℚ := 1/10) (max_tokens : Int := 2000) :
    Except String ModelConfigData :=
  if !pyTruthy api_key && !pyTruthy envKey then
    .error "API密钥未设置，请提供api_key参数或设置DASHSCOPE_API_KEY环境变量"
  else if !(base_url.startsWith "http://" || base_url.startsWith "https://") then
    .error ("无效的base_url: " ++ base_url)
  else if recognition_model = "" ∨ analysis_model = "" then
    .error "模型名称不能为空"
  else if temperature < 0 ∨ 1 < temperature then
    .error ("temperature必须在0到1之间，当前值: " ++ toString temperature)
  else if max_tokens ≤ 0 then
    .error ("max_tokens必须大于0，当前值: " ++ toString max_tokens)
  else
    .ok { api_key := (pyOr api_key envKey).getD "", base_url,
          recognition_model, analysis_model, temperature, max_tokens }

end Chat2TableConfig

/-- A parsed JSON value as produced by Python's `json.loads`.  Numbers
keep their lexed source text (covering ints, floats and the CPython
extensions `NaN` / `Infinity` / `-Infinity`); objects keep their key/value
pairs in source order. -/
inductive Json where
  | null
  | bool (b : Bool)
  | num (numeral : String)
  | str (s : String)
  | arr (xs : List Json)
  | obj (kvs : List (String × Json))

/-- JSON insignificant whitespace (space, tab, newline, carriage return). -/
def isJsonWs (c : Char) : Bool :=
  c = ' ' || c = '\t' || c = '\n' || c = '\r'

/-- Skip insignificant whitespace. -/
def skipWs : List Char → List Char
  | c :: cs => if isJsonWs c then skipWs cs else c :: cs
  | [] => []

/-- Value of a hexadecimal digit. -/
def hexVal (c : Char) : Option Nat :=
  if '0' ≤ c ∧ c ≤ '9' then some (c.toNat - '0'.toNat)
  else if 'a' ≤ c ∧ c ≤ 'f' then some (c.toNat - 'a'.toNat + 10)
  else if 'A' ≤ c ∧ c ≤ 'F' then some (c.toNat - 'A'.toNat + 10)
  else none

/-- Decimal digit test. -/
def isDigitCh (c : Char) : Bool := '0' ≤ c && c ≤ '9'

/-- Parse the body of a JSON string (the opening quote already consumed),
handling the escape sequences accepted by `json.loads` in strict mode and
rejecting unescaped control characters; returns the decoded characters
and the remaining input. -/
def parseStringChars : List Char → Option (List Char × List Char)
  | [] => none
  | '"' :: cs => some ([], cs)
  | '\\' :: 'u' :: h1 :: h2 :: h3 :: h4 :: cs =>
      match hexVal h1, hexVal h2, hexVal h3, hexVal h4 with
      | some a, some b, some c, some d =>
          (parseStringChars cs).map
            (fun p => (Char.ofNat (a * 4096 + b * 256 + c * 16 + d) :: p.1, p.2))
      | _, _, _, _ => none
  | '\\' :: e :: cs =>
      let cont : Char → Option (List Char × List Char) := fun decoded =>
        (parseStringChars cs).map (fun p => (decoded :: p.1, p.2))
      if e = '"' ∨ e = '\\' ∨ e = '/' then cont e
      else if e = 'b' then cont (Char.ofNat 8)
      else if e = 'f' then cont (Char.ofNat 12)
      else if e = 'n' then cont (Char.ofNat 10)
      else if e = 'r' then cont (Char.ofNat 13)
      else if e = 't' then cont (Char.ofNat 9)
      else none
  | c :: cs =>
      if c = '\\' ∨ c.toNat < 32 then none
      else (parseStringChars cs).map (fun p => (c :: p.1, p.2))

/-- Consume an exact literal (e.g. `true`, `null`, `Infinity`). -/
def stripLit : List Char → List Char → Option (List Char)
  | [], cs => some cs
  | l :: ls, c :: cs => if c = l then stripLit ls cs else none
  | _ :: _, [] => none

/-- Lex a JSON number per `json.loads`'s `NUMBER_RE`
(`-? (0 | [1-9][0-9]*) (\.[0-9]+)? ([eE][+-]?[0-9]+)?`), returning its
source text and the remaining input. -/
def parseNumber (cs : List Char) : Option (String × List Char) :=
  let (negChars, cs1) :=
    match cs with
    | '-' :: t => (['-'], t)
    | _ => (([] : List Char), cs)
  match cs1 with
  | c :: t =>
      if c = '0' ∨ isDigitCh c then
        let (intDigits, rest) :=
          if c = '0' then (([] : List Char), t) else t.span isDigitCh
        let intPart := c :: intDigits
        let (fracPart, rest2) :=
          match rest with
          | '.' :: t2 =>
              let (ds, r) := t2.span isDigitCh
              if ds = [] then (none, rest) else (some ('.' :: ds), r)
          | _ => (none, rest)
        let (expPart, rest3) :=
            match rest2 with
            | e :: t3 =>
                if e = 'e' ∨ e = 'E' then
                  let (sgn, t4) :=
                    match t3 with
                    | s :: t5 => if s = '+' ∨ s = '-' then ([s], t5) else (([] : List Char), t3)
                    | [] => (([] : List Char), t3)
                  let (ds, r) := t4.span isDigitCh
                  if ds = [] then ((none : Option (List Char)), rest2)
                  else (some (e :: (sgn ++ ds)), r)
                else (none, rest2)
            | [] => (none, rest2)
          some (String.mk (negChars ++ intPart ++ (fracPart.getD []) ++ (expPart.getD [])), rest3)
      else none
  | [] => none

mutual

/-- Parse one JSON value (fuel-bounded recursion; the fuel passed by
`jsonLoads` is generous enough for any input of the given length). -/
def parseValue : Nat → List Char → Option (Json × List Char)
  | 0, _ => none
  | Nat.succ fuel, cs =>
      match skipWs cs with
      | [] => none
      | '"' :: t => (parseStringChars t).map (fun p => (.str (String.mk p.1), p.2))
      | '{' :: t =>
          match skipWs t with
          | '}' :: t2 => some (.obj [], t2)
          | t2 => (parseMembers fuel t2).map (fun p => (.obj p.1, p.2))
      | '[' :: t =>
          match skipWs t with
          | ']' :: t2 => some (.arr [], t2)
          | t2 => (parseItems fuel t2).map (fun p => (.arr p.1, p.2))
      | 't' :: t => (stripLit ['r', 'u', 'e'] t).map (fun r => (.bool true, r))
      | 'f' :: t => (stripLit ['a', 'l', 's', 'e'] t).map (fun r => (.bool false, r))
      | 'n' :: t => (stripLit ['u', 'l', 'l'] t).map (fun r => (.null, r))
      | 'N' :: t => (stripLit ['a', 'N'] t).map (fun r => (.num "NaN", r))
      | 'I' :: t =>
          (stripLit ['n', 'f', 'i', 'n', 'i', 't', 'y'] t).map
            (fun r => (.num "Infinity", r))
      | '-' :: 'I' :: t =>
          (stripLit ['n', 'f', 'i', 'n', 'i', 't', 'y'] t).map
            (fun r => (.num "-Infinity", r))
      | t => (parseNumber t).map (fun p => (.num p.1, p.2))

/-- Parse the comma-separated items of a non-empty JSON array, up to and
including the closing bracket. -/
def parseItems : Nat → List Char → Option (List Json × List Char)
  | 0, _ => none
  | Nat.succ fuel, cs =>
      match parseValue fuel cs with
      | none => none
      | some (v, rest) =>
          match skipWs rest with
          | ']' :: t => some ([v], t)
          | ',' :: t =>
              (parseItems fuel t).map (fun p => (v :: p.1, p.2))
          | _ => none

/-- Parse the comma-separated `"key": value` members of a non-empty JSON
object, up to and including the closing brace. -/
def parseMembers : Nat → List Char → Option (List (String × Json) × List Char)
  | 0, _ => none
  | Nat.succ fuel, cs =>
      match skipWs cs with
      | '"' :: t =>
          match parseStringChars t with
          | none => none
          | some (key, rest) =>
              match skipWs rest with
              | ':' :: t2 =>
                  match parseValue fuel t2 with
                  | none => none
                  | some (v, rest2) =>
                      match skipWs rest2 with
                      | '}' :: t3 => some ([(String.mk key, v)], t3)
                      | ',' :: t3 =>
                          (parseMembers fuel t3).map
                            (fun p => ((String.mk key, v) :: p.1, p.2))
                      | _ => none
              | _ => none
      | _ => none

end

/-- `json.loads`: parse a complete JSON document, requiring the input to
be exhausted (up to trailing whitespace); `none` models a raised
`json.JSONDecodeError`. -/
def jsonLoads (s : String) : Option Json :=
  match parseValue (4 * s.length + 8) s.toList with
  | some (v, rest) => if skipWs rest = [] then some v else none
  | none => none

/-- `parse_analysis_result` of `main.py` (lines 46-60): return
`json.loads(analysis_result)` when it parses, and the dict
`{"raw_result": analysis_result}` when `json.JSONDecodeError` is raised;
no exception escapes. -/
def parse_analysis_result (analysis_result : String) : Json :=
  match jsonLoads analysis_result with
  | some v => v
  | none => .obj [("raw_result", .str analysis_result)]

/-- What a file write puts on disk: either `json.dump` of a result dict
or plain text (the serialized form itself is external to the repository's
logic). -/
inductive FileContent where
  | jsonDump (r : ResultDict)
  | text (s : String)

/-- Filesystem oracle for the entry points: directory creation, file
writes and binary file reads, each of which may raise. -/
structure Fs where
  makedirs : String → Except String Unit
  writeFile : String → FileContent → Except String Unit
  readFile : String → Except String Bytes

namespace RunPy

/-- `save_result` of `run.py` (lines 76-99): create the output directory,
derive the filename from the current timestamp, and write the result as
JSON or text; any exception is logged and RE-RAISED (`raise`), so a
failure propagates to the caller as `Except.error`.  `now` is
`int(time.time())`. -/
def save_result (fs : Fs) (now : Nat) (result : ResultDict)
    (output_dir : String := "output") (output_format : String := "json") :
    Except String Unit :=
  match fs.makedirs output_dir with
  | .error e => .error e
  | .ok _ =>
      let base_name := "result_" ++ toString now
      let output_path := output_dir ++ "/" ++ base_name ++ "." ++ output_format
      if output_format.toLower = "json" then
        fs.writeFile output_path (.jsonDump result)
      else
        fs.writeFile output_path (.text
          ("\n=== 识别结果 ===\n" ++ result.recognition_result.getD "无内容" ++
           "\n\n=== 分析结果 ===\n" ++ result.analysis_result.getD "无分析结果"))

end RunPy

/-- Oracle for `pdf2image.convert_from_path`: rasterize a PDF into its
pages in page order, or raise. -/
structure PdfEnv where
  convert_from_path : String → Except String (List PILImage)

/-- The body of `for i, img in enumerate(images): ... (f(img), i+1)`:
pair each page (under a serialization `f`) with its 1-based page number,
`i` being the running `enumerate` counter. -/
def pairWithPages {α : Type} (f : PILImage → α) : Nat → List PILImage → List (α × Nat)
  | _, [] => []
  | i, img :: rest => (f img, i + 1) :: pairWithPages f (i + 1) rest

namespace MainPy

/-- `convert_pdf_to_images` of `main.py` (lines 141-156): rasterize the
PDF and pair each page image with its 1-based page number; a rasterizer
exception is logged and re-raised. -/
def convert_pdf_to_images (pe : PdfEnv) (pdf_path : String) :
    Except String (List (PILImage × Nat)) :=
  match pe.convert_from_path pdf_path with
  | .error e => .error e
  | .ok images => .ok (pairWithPages id 0 images)

end MainPy

namespace RunPy

/-- `convert_pdf_to_images` of `run.py` (lines 31-45): rasterize the PDF,
serialize each page to PNG bytes via an in-memory buffer, and pair it
with its 1-based page number; a rasterizer exception is logged and
re-raised. -/
def convert_pdf_to_images (pe : PdfEnv) (pdf_path : String) :
    Except String (List (Bytes × Nat)) :=
  match pe.convert_from_path pdf_path with
  | .error e => .error e
  | .ok images => .ok (pairWithPages PILImage.png 0 images)

end RunPy

/-- Truthiness of `result.get('image_url')`: the key may be absent, hold
Python `None`, or hold a (possibly empty) string. -/
def pyTruthyUrl : Option (Option String) → Bool
  | some (some s) => s ≠ ""
  | _ => false

/-- The argument accepted by `main.py`'s `process_local_image`: a local
file path or an in-memory `PIL.Image.Image` (a rasterized PDF page). -/
inductive LocalImageInput where
  | path (p : String)
  | image (img : PILImage)
deriving DecidableEq, Repr

namespace MainPy

/-- The error dict built by the `except` clause of `main.py`'s
`process_local_image` and `process_image`. -/
def localErrorDict (e : String) : ResultDict :=
  { status := "error", error := some ("处理图片失败: " ++ e),
    analysis_result := some "处理失败", recognition_result := some "处理失败" }

/-- The PDF bookkeeping at the end of `process_local_image` (lines
214-219): set `original_pdf` and `page_number`, and give PDF-page results
a synthetic `image_url` when they have none. -/
def attachPdfFields (result : ResultDict) (k : Nat) : ResultDict :=
  let r1 := { result with original_pdf := some true, page_number := some k }
  if pyTruthyUrl r1.image_url then r1
  else { r1 with image_url := some (some ("pdf_page_" ++ toString k ++ ".png")) }

/-- The post-processing of the chain result inside `process_local_image`
(lines 210-222): an error result raises `ValueError(error_msg)` into the
local `except` (yielding the local error dict); a success result gains
the PDF fields when a page number is given. -/
def wrapResult (rc : ResultDict × List Call) (page_number : Option Nat) :
    ResultDict × List Call :=
  if rc.1.status = "error" then
    (MainPy.localErrorDict (rc.1.error.getD "图片处理失败，未获得有效结果"), rc.2)
  else
    match page_number with
    | none => rc
    | some k => (MainPy.attachPdfFields rc.1 k, rc.2)

/-- `process_local_image` of `main.py` (lines 186-231): read a path into
bytes (or serialize a PIL page image to PNG in a `BytesIO` buffer), run
the chain's `process_image` on it, raise (into the local `except`) when
the chain reported an error, and attach `original_pdf` / `page_number` /
a synthetic `image_url` for PDF pages.  Every exception is caught and
converted into an error dict; the call trace of the underlying chain
invocation is returned alongside. -/
def process_local_image (env : Env) (fs : Fs) (image_data : LocalImageInput)
    (page_number : Option Nat) (stream : Bool := false) :
    ResultDict × List Call :=
  let attempt : Except String (ResultDict × List Call) :=
    match image_data with
    | .path p =>
        match fs.readFile p with
        | .error e => .error e
        | .ok bs => .ok (Chains.process_image env (.bytes bs) stream)
    | .image img => .ok (Chains.process_image env (.buffer img.png) stream)
  match attempt with
  | .error e => (MainPy.localErrorDict e, [])
  | .ok rc => MainPy.wrapResult rc page_number

end MainPy

/-- Filesystem oracle for `ImageRecognizer`: `Path(...).exists()` and
binary file reads. -/
structure RecFs where
  pathExists : String → Bool
  read : String → Except String Bytes

/-- Provider oracle for `ImageRecognizer`'s chat-completions client,
keyed by the varying request parts (base64 image and prompt text; the
model name and fixed system prompt are constants of the client instance).
`complete` is the non-stream full response; `completeStream` the chunk
sequence, each chunk's `delta.content` being a string or `None`. -/
structure RecProvider where
  complete : String → String → Except String String
  completeStream : String → String → Except String (List (Option String))

/-- The dict returned by `ImageRecognizer.recognize_image` in non-stream
or error cases. -/
structure RecogDict where
  status : String
  image_path : String
  content : Option String := none
  model : Option String := none
  error : Option String := none
deriving DecidableEq, Repr

/-- `recognize_image`'s return value: a bare string in stream mode, a
dict otherwise. -/
inductive RecogOutcome where
  | streamed (full_response : String)
  | result (d : RecogDict)
deriving DecidableEq, Repr

/-- The streaming loop of `recognize_image` (lines 131-140):
`full_response += content` for every chunk whose delta content is not
`None`, in arrival order. -/
def streamConcat (chunks : List (Option String)) : String :=
  chunks.foldl (fun acc c => match c with | some t => acc ++ t | none => acc) ""

namespace Recognizer

/-- The default recognition prompt of `ImageRecognizer.__init__`. -/
def default_prompt : String :=
  "请仔细观察并描述图片内容。要求如下：\n        1. 详细解释图片中数据或图表所表达的含义，确保内容准确、逻辑清晰。\n        2. 不需要进行主观分析，但必须完整、准确地输出图片中包含的所有数据，确保无遗漏。\n        "

/-- `ImageRecognizer.recognize_image` of `recognizer/image_recognizer.py`
(lines 80-159): check the file exists, base64-encode it, issue one
chat-completions request; in stream mode concatenate the non-`None`
chunk deltas into a string, otherwise wrap the full response in a
success dict; any exception yields an error dict. -/
def recognize_image (fs : RecFs) (p : RecProvider) (model_name : String)
    (image_path : String) (prompt : Option String := none)
    (stream : Bool := false) : RecogOutcome :=
  if !fs.pathExists image_path then
    .result { status := "error", image_path,
              error := some ("图片文件不存在: " ++ image_path) }
  else
    match fs.read image_path with
    | .error e => .result { status := "error", image_path, error := some e }
    | .ok bs =>
        let base64_image := base64Encode bs
        let promptText := prompt.getD Recognizer.default_prompt
        if stream then
          match p.completeStream base64_image promptText with
          | .error e => .result { status := "error", image_path, error := some e }
          | .ok chunks => .streamed (streamConcat chunks)
        else
          match p.complete base64_image promptText with
          | .error e => .result { status := "error", image_path, error := some e }
          | .ok content =>
              .result { status := "success", image_path,
                        content := some content, model := some model_name }

end Recognizer

/-- Number of recognition-model calls in a trace. -/
def countRecognition (calls : List Call) : Nat :=
  calls.countP Call.isRecognition

/-- Number of analysis-model calls in a trace. -/
def countAnalysis (calls : List Call) : Nat :=
  calls.countP Call.isAnalysis

/-- The result-record invariant: `status` is `"success"` or `"error"`;
an error record carries an `error` message; a success record carries both
a `recognition_result` and an `analysis_result`. -/
def wellTagged (r : ResultDict) : Prop :=
  (r.status = "success" ∨ r.status = "error") ∧
  (r.status = "error" → r.error.isSome = true) ∧
  (r.status = "success" →
    r.recognition_result.isSome = true ∧ r.analysis_result.isSome = true)

/-- Concatenation of a list of strings (used to state the provider's
stream-reassembly contract). -/
def joinStrings : List String → String
  | [] => ""
  | s :: rest => s ++ joinStrings rest

/-- A concrete oracle: both hosted models answer, downloads fail. -/
def envOK : Env where
  download := fun _ => .error "网络不可用"
  recognitionOutcome := fun _ => .ok "R"
  analysisOutcome := fun _ => .ok "A"

/-- A concrete filesystem oracle on which every operation raises. -/
def failingFs : Fs where
  makedirs := fun _ => .error "[Errno 13] Permission denied: 'output'"
  writeFile := fun _ _ => .error "[Errno 28] No space left on device"
  readFile := fun _ => .error "[Errno 2] No such file or directory"

/-- A concrete filesystem oracle on which every operation succeeds. -/
def okFs : Fs where
  makedirs := fun _ => .ok ()
  writeFile := fun _ _ => .ok ()
  readFile := fun _ => .ok [7, 7, 7]

/-- A concrete recognizer filesystem with one readable image. -/
def recFsOK : RecFs where
  pathExists := fun _ => true
  read := fun _ => .ok [1, 2, 3]

/-- A concrete deterministic provider whose stream chunks reassemble to
its full response. -/
def recProviderOK : RecProvider where
  complete := fun _ _ => .ok "hello world"
  completeStream := fun _ _ => .ok [some "hello", none, some " world"]

/-- A concrete rasterizer producing a two-page PDF. -/
def pdfEnvOK : PdfEnv where
  convert_from_path := fun _ => .ok [⟨[1], [2]⟩, ⟨[3], [4]⟩]

/-- A record with error status and an error message is well tagged. -/
lemma wellTagged_error (r : ResultDict) (hs : r.status = "error")
    (he : r.error.isSome = true) : wellTagged r :=
  ⟨Or.inr hs, fun _ => he, fun h => absurd (hs.symm.trans h) (by decide)⟩

/-- A record with success status and both stage outputs is well tagged. -/
lemma wellTagged_success (r : ResultDict) (hs : r.status = "success")
    (hr : r.recognition_result.isSome = true)
    (ha : r.analysis_result.isSome = true) : wellTagged r :=
  ⟨Or.inl hs, fun h => absurd (hs.symm.trans h) (by decide), fun _ => ⟨hr, ha⟩⟩

/-- Whether an `Except` computation succeeded (construction did not
raise). -/
def exceptOk {ε α : Type} : Except ε α → Bool
  | .ok _ => true
  | .error _ => false

lemma convertLoop_length (env : Env) :
    ∀ (inputs : List ImageData) (bs : List Bytes),
      Chat2Table.convertLoop env inputs = .ok bs → bs.length = inputs.length := by
  intro inputs
  induction inputs with
  | nil => intro bs h; cases h; rfl
  | cons i rest ih =>
      intro bs h
      unfold Chat2Table.convertLoop at h
      cases hc : Chat2Table.convert_to_bytes env i with
      | error e => rw [hc] at h; cases h
      | ok b =>
          rw [hc] at h
          cases hr : Chat2Table.convertLoop env rest with
          | error e => rw [hr] at h; cases h
          | ok bs' =>
              rw [hr] at h
              cases h
              simp [ih bs' hr]

lemma convertLoop_error_of_mem (env : Env) :
    ∀ (inputs : List ImageData) (img : ImageData), img ∈ inputs →
      ∀ (e : String), Chat2Table.convert_to_bytes env img = .error e →
        ∃ e', Chat2Table.convertLoop env inputs = .error e' := by
  intro inputs
  induction inputs with
  | nil => intro img hm; cases hm
  | cons i rest ih =>
      intro img hm e he
      rcases List.mem_cons.mp hm with rfl | hm'
      · exact ⟨e, by unfold Chat2Table.convertLoop; rw [he]⟩
      · cases hc : Chat2Table.convert_to_bytes env i with
        | error e0 => exact ⟨e0, by unfold Chat2Table.convertLoop; rw [hc]⟩
        | ok b =>
            obtain ⟨e', he'⟩ := ih img hm' e he
            exact ⟨e', by unfold Chat2Table.convertLoop; rw [hc, he']⟩

lemma wellTagged_chains_process_image (env : Env) (d : ImageData) (st : Bool) :
    wellTagged (Chains.process_image env d st).1 := by
  unfold Chains.process_image
  cases Chains.normalize env d with
  | error e => exact wellTagged_error _ rfl rfl
  | ok b =>
      dsimp only
      cases env.recognitionOutcome [base64Encode b] with
      | error e => exact wellTagged_error _ rfl rfl
      | ok r =>
          dsimp only
          cases env.analysisOutcome r with
          | error e => exact wellTagged_error _ rfl rfl
          | ok a => exact wellTagged_success _ rfl rfl rfl

lemma wellTagged_chains_process_multiple (env : Env) (inputs : List ImageData) (st : Bool) :
    wellTagged (Chains.process_multiple_images env inputs st).1 := by
  unfold Chains.process_multiple_images
  rcases Chains.batchLoop env st inputs with ⟨acc, calls⟩
  by_cases hacc : acc = []
  · simp only [hacc, if_pos rfl]
    exact wellTagged_error _ rfl rfl
  · simp only [if_neg hacc]
    cases env.analysisOutcome (Chains.combineResults acc) with
    | error e => exact wellTagged_error _ rfl rfl
    | ok a => exact wellTagged_success _ rfl rfl rfl

lemma wellTagged_c2t_process_image (env : Env) (d : ImageData) (st : Bool) :
    wellTagged (Chat2Table.process_image env d st).1 := by
  unfold Chat2Table.process_image
  cases Chat2Table.convert_to_bytes env d with
  | error e => exact wellTagged_error _ rfl rfl
  | ok b =>
      dsimp only
      cases env.recognitionOutcome [base64Encode b] with
      | error e => exact wellTagged_error _ rfl rfl
      | ok r =>
          dsimp only
          cases env.analysisOutcome r with
          | error e => exact wellTagged_error _ rfl rfl
          | ok a => exact wellTagged_success _ rfl rfl rfl

lemma wellTagged_c2t_process_multiple (env : Env) (inputs : List ImageData) (st : Bool) :
    wellTagged (Chat2Table.process_multiple_images env inputs st).1 := by
  unfold Chat2Table.process_multiple_images
  cases Chat2Table.convertLoop env inputs with
  | error e => exact wellTagged_error _ rfl rfl
  | ok bs =>
      by_cases hbs : bs = []
      · simp only [hbs, if_pos rfl]
        exact wellTagged_error _ rfl rfl
      · simp only [if_neg hbs]
        cases env.recognitionOutcome (bs.map base64Encode) with
        | error e => exact wellTagged_error _ rfl rfl
        | ok r =>
            dsimp only
            cases env.analysisOutcome r with
            | error e => exact wellTagged_error _ rfl rfl
            | ok a => exact wellTagged_success _ rfl rfl rfl

lemma wellTagged_wrapResult (rc : ResultDict × List Call) (pn : Option Nat)
    (h : wellTagged rc.1) : wellTagged (MainPy.wrapResult rc pn).1 := by
  unfold MainPy.wrapResult
  by_cases hre : rc.1.status = "error"
  · rw [if_pos hre]; exact wellTagged_error _ rfl rfl
  · rw [if_neg hre]
    rcases pn with _ | k
    · exact h
    · dsimp only
      unfold MainPy.attachPdfFields
      dsimp only
      by_cases hurl : pyTruthyUrl rc.1.image_url = true
      · rw [if_pos hurl]; exact ⟨h.1, h.2.1, h.2.2⟩
      · rw [if_neg hurl]; exact ⟨h.1, h.2.1, h.2.2⟩

lemma wrapResult_trace (rc : ResultDict × List Call) (pn : Option Nat) :
    (MainPy.wrapResult rc pn).2 = rc.2 := by
  unfold MainPy.wrapResult
  by_cases hre : rc.1.status = "error"
  · rw [if_pos hre]
  · rw [if_neg hre]
    rcases pn with _ | k
    · rfl
    · rfl

lemma wellTagged_process_local_image (env : Env) (fs : Fs) (li : LocalImageInput)
    (pn : Option Nat) (st : Bool) :
    wellTagged (MainPy.process_local_image env fs li pn st).1 := by
  unfold MainPy.process_local_image
  rcases li with p | img <;> dsimp only
  · cases fs.readFile p with
    | error e => exact wellTagged_error _ rfl rfl
    | ok bs =>
        exact wellTagged_wrapResult _ pn (wellTagged_chains_process_image env (.bytes bs) st)
  · exact wellTagged_wrapResult _ pn (wellTagged_chains_process_image env (.buffer img.png) st)

lemma foldl_streamConcat (chunks : List (Option String)) :
    ∀ acc : String,
      chunks.foldl (fun acc c => match c with | some t => acc ++ t | none => acc) acc =
        acc ++ joinStrings (chunks.filterMap id) := by
  induction chunks with
  | nil => intro acc; simp [joinStrings]
  | cons c rest ih =>
      intro acc
      cases c with
      | none => simp only [List.foldl_cons, List.filterMap_cons_none, ih]; rfl
      | some t =>
          simp only [List.foldl_cons, List.filterMap_cons_some, ih, joinStrings]
          rw [String.append_assoc]

lemma streamConcat_eq_join (chunks : List (Option String)) :
    streamConcat chunks = joinStrings (chunks.filterMap id) := by
  unfold streamConcat
  rw [foldl_streamConcat]
  exact String.empty_append _

lemma pairWithPages_length {α : Type} (f : PILImage → α) :
    ∀ (i : Nat) (imgs : List PILImage), (pairWithPages f i imgs).length = imgs.length := by
  intro i imgs
  induction imgs generalizing i with
  | nil => rfl
  | cons img rest ih => simp [pairWithPages, ih]

lemma pairWithPages_map_fst {α : Type} (f : PILImage → α) :
    ∀ (i : Nat) (imgs : List PILImage),
      (pairWithPages f i imgs).map Prod.fst = imgs.map f := by
  intro i imgs
  induction imgs generalizing i with
  | nil => rfl
  | cons img rest ih => simp [pairWithPages, ih]

lemma pairWithPages_map_snd {α : Type} (f : PILImage → α) :
    ∀ (i : Nat) (imgs : List PILImage),
      (pairWithPages f i imgs).map Prod.snd = List.range' (i + 1) imgs.length := by
  intro i imgs
  induction imgs generalizing i with
  | nil => rfl
  | cons img rest ih =>
      simp only [pairWithPages, List.map_cons, List.length_cons, List.range'_succ, ih]

/-- C1: the claim as stated fails on the cited top-level
`chains/image_processing.py` variant: for a batch of two valid byte
images with all provider calls succeeding, its `process_multiple_images`
issues two recognition calls and three analysis calls (one of each per
image via `process_image`, plus one combined analysis call), not one of
each. -/
theorem C1_chains_counterexample :
    countRecognition (Chains.process_multiple_images envOK
      [ImageData.bytes [0], ImageData.bytes [1]]).2 = 2 ∧
    countAnalysis (Chains.process_multiple_images envOK
      [ImageData.bytes [0], ImageData.bytes [1]]).2 = 3 :=
  ⟨rfl, rfl⟩

/-- C1 (amended): for every nonempty list of N image inputs that all
convert to bytes, whose batch recognition call succeeds, the chat2table
variant's `process_multiple_images` issues exactly one recognition call
carrying all N image blocks in its single multimodal message and exactly
one analysis call. -/
theorem C1_batch_single_call (env : Env) (inputs : List ImageData)
    (bs : List Bytes) (r : String)
    (hconv : Chat2Table.convertLoop env inputs = .ok bs)
    (hne : inputs ≠ [])
    (hrec : env.recognitionOutcome (bs.map base64Encode) = .ok r) :
    (Chat2Table.process_multiple_images env inputs).2 =
      [Call.recognition (bs.map base64Encode), Call.analysis r] ∧
    (bs.map base64Encode).length = inputs.length ∧
    countRecognition (Chat2Table.process_multiple_images env inputs).2 = 1 ∧
    countAnalysis (Chat2Table.process_multiple_images env inputs).2 = 1 := by
  have hlen : bs.length = inputs.length := convertLoop_length env inputs bs hconv
  have hbs : ¬ bs = [] := by
    intro h
    rw [h, List.length_nil] at hlen
    exact hne (List.length_eq_zero.mp hlen.symm)
  have htrace : (Chat2Table.process_multiple_images env inputs).2 =
      [Call.recognition (bs.map base64Encode), Call.analysis r] := by
    unfold Chat2Table.process_multiple_images
    rw [hconv]
    dsimp only
    rw [if_neg hbs, hrec]
    dsimp only
    cases env.analysisOutcome r <;> rfl
  refine ⟨htrace, ?_, ?_, ?_⟩
  · rw [List.length_map]; exact hlen
  · rw [htrace]; rfl
  · rw [htrace]; rfl

/-- C1 witness: concrete two-image batch through the chat2table chain. -/
theorem C1_witness :
    (Chat2Table.process_multiple_images envOK
        [ImageData.bytes [0], ImageData.bytes [1]]).2 =
      [Call.recognition (([[0], [1]] : List Bytes).map base64Encode), Call.analysis "R"] ∧
    (([[0], [1]] : List Bytes).map base64Encode).length =
      ([ImageData.bytes [0], ImageData.bytes [1]] : List ImageData).length ∧
    countRecognition (Chat2Table.process_multiple_images envOK
      [ImageData.bytes [0], ImageData.bytes [1]]).2 = 1 ∧
    countAnalysis (Chat2Table.process_multiple_images envOK
      [ImageData.bytes [0], ImageData.bytes [1]]).2 = 1 :=
  C1_batch_single_call envOK [ImageData.bytes [0], ImageData.bytes [1]]
    [[0], [1]] "R" rfl (List.cons_ne_nil _ _) rfl

/-- C2: the claim as stated fails on the cited top-level
`chains/image_processing.py` variant: with a batch whose first image
fails (unsupported type) and whose second succeeds, its
`process_multiple_images` skips the failure and returns a SUCCESS record
built from the surviving image, not an error record. -/
theorem C2_chains_counterexample :
    (Chains.process_image envOK (ImageData.other "<class 'int'>")).1.status = "error" ∧
    (Chains.process_multiple_images envOK
      [ImageData.other "<class 'int'>", ImageData.bytes [1]]).1.status = "success" ∧
    (Chains.process_multiple_images envOK
      [ImageData.other "<class 'int'>", ImageData.bytes [1]]).1.error = none :=
  ⟨rfl, rfl, rfl⟩

/-- C2 (amended): in the chat2table variant, if converting any one image
of the batch fails, `process_multiple_images` returns a single error
record for the whole batch — error status with a message, no
recognition or analysis results — and issues no model call at all. -/
theorem C2_batch_abort (env : Env) (inputs : List ImageData)
    (img : ImageData) (e : String) (hm : img ∈ inputs)
    (he : Chat2Table.convert_to_bytes env img = .error e) :
    (Chat2Table.process_multiple_images env inputs).1.status = "error" ∧
    (Chat2Table.process_multiple_images env inputs).1.error.isSome = true ∧
    (Chat2Table.process_multiple_images env inputs).1.recognition_result = none ∧
    (Chat2Table.process_multiple_images env inputs).1.analysis_result = none ∧
    (Chat2Table.process_multiple_images env inputs).2 = [] := by
  obtain ⟨e', he'⟩ := convertLoop_error_of_mem env inputs img hm e he
  unfold Chat2Table.process_multiple_images
  rw [he']
  exact ⟨rfl, rfl, rfl, rfl, rfl⟩

/-- C2 witness: a one-image batch whose image is of unsupported type. -/
theorem C2_witness :
    (Chat2Table.process_multiple_images envOK
      [ImageData.other "<class 'int'>"]).1.status = "error" ∧
    (Chat2Table.process_multiple_images envOK
      [ImageData.other "<class 'int'>"]).1.error.isSome = true ∧
    (Chat2Table.process_multiple_images envOK
      [ImageData.other "<class 'int'>"]).1.recognition_result = none ∧
    (Chat2Table.process_multiple_images envOK
      [ImageData.other "<class 'int'>"]).1.analysis_result = none ∧
    (Chat2Table.process_multiple_images envOK
      [ImageData.other "<class 'int'>"]).2 = [] :=
  C2_batch_abort envOK [ImageData.other "<class 'int'>"]
    (ImageData.other "<class 'int'>") ("不支持的图片数据类型: " ++ "<class 'int'>")
    (List.mem_singleton.mpr rfl) rfl

/-- C3: `parse_analysis_result` returns the parsed structure unchanged
when the input is valid JSON, and the dict `\x7b"raw_result": s\x7d`
when parsing fails; being a total function, it never raises. -/
theorem C3_parse_analysis_result (s : String) :
    (∀ j, jsonLoads s = some j → parse_analysis_result s = j) ∧
    (jsonLoads s = none →
      parse_analysis_result s = Json.obj [("raw_result", Json.str s)]) := by
  constructor
  · intro j h; unfold parse_analysis_result; rw [h]
  · intro h; unfold parse_analysis_result; rw [h]

/-- C3 witness: a valid JSON document is passed through unchanged; an
invalid one comes back under the fallback key. -/
theorem C3_witness :
    parse_analysis_result "[1, 2]" = Json.arr [Json.num "1", Json.num "2"] ∧
    parse_analysis_result "not json" =
      Json.obj [("raw_result", Json.str "not json")] :=
  ⟨(C3_parse_analysis_result "[1, 2]").1 _ rfl,
   (C3_parse_analysis_result "not json").2 rfl⟩

/-- C4: the claim as stated fails on the cited top-level
`models/config.py` variant: its `__init__` validates only the API key,
so construction with temperature 5 (outside [0, 1]) and max_tokens 0
succeeds instead of failing. -/
theorem C4_models_counterexample :
    exceptOk (Models.init (some "key") none
      "https://dashscope.aliyuncs.com/compatible-mode/v1"
      "qwen-vl-max" "qwen-max" 5 0) = true :=
  rfl

/-- C4 (amended): the chat2table `ModelConfig` validates eagerly: for
every temperature outside [0, 1] or max_tokens ≤ 0, construction raises
`ConfigError` (no config object, hence no model object, is produced);
the top-level `models/config.py` variant performs no such validation. -/
theorem C4_c2t_validates (api_key envKey : Option String)
    (base_url rm am : String) (t : ℚ) (mt : Int)
    (h : t < 0 ∨ 1 < t ∨ mt ≤ 0) :
    ∃ msg, Chat2TableConfig.init api_key envKey base_url rm am t mt = .error msg := by
  unfold Chat2TableConfig.init
  split_ifs with h1 h2 h3 h4 h5
  · exact ⟨_, rfl⟩
  · exact ⟨_, rfl⟩
  · exact ⟨_, rfl⟩
  · exact ⟨_, rfl⟩
  · exact ⟨_, rfl⟩
  · exfalso
    rcases h with ht | ht | hmt
    · exact h4 (Or.inl ht)
    · exact h4 (Or.inr ht)
    · exact h5 hmt

/-- C4 witness: a concrete out-of-range temperature is rejected by the
chat2table config. -/
theorem C4_witness :
    ∃ msg, Chat2TableConfig.init (some "key") none
      "https://dashscope.aliyuncs.com/compatible-mode/v1"
      "qwen-vl-max" "qwen-max" 5 0 = .error msg :=
  C4_c2t_validates (some "key") none
    "https://dashscope.aliyuncs.com/compatible-mode/v1"
    "qwen-vl-max" "qwen-max" 5 0 (Or.inr (Or.inl (by norm_num)))

/-- C5: with no `api_key` argument and the `DASHSCOPE_API_KEY`
environment variable unset, both `ModelConfig` variants raise the
descriptive credential error from `__init__`; construction consists of
validation and field assignment only, so no model client exists yet and
no network call can have been attempted. -/
theorem C5_missing_credential (base_url rm am : String) (t : ℚ) (mt : Int) :
    Models.init none none base_url rm am t mt =
      .error "API密钥未设置，请提供api_key参数或设置DASHSCOPE_API_KEY环境变量" ∧
    Chat2TableConfig.init none none base_url rm am t mt =
      .error "API密钥未设置，请提供api_key参数或设置DASHSCOPE_API_KEY环境变量" :=
  ⟨rfl, rfl⟩

/-- C5 witness: concrete default parameters, key absent everywhere. -/
theorem C5_witness :
    Models.init none none "https://dashscope.aliyuncs.com/compatible-mode/v1"
      "qwen-vl-max" "qwen-max" (1/10) 2000 =
      .error "API密钥未设置，请提供api_key参数或设置DASHSCOPE_API_KEY环境变量" ∧
    Chat2TableConfig.init none none "https://dashscope.aliyuncs.com/compatible-mode/v1"
      "qwen-vl-max" "qwen-max" (1/10) 2000 =
      .error "API密钥未设置，请提供api_key参数或设置DASHSCOPE_API_KEY环境变量" :=
  C5_missing_credential "https://dashscope.aliyuncs.com/compatible-mode/v1"
    "qwen-vl-max" "qwen-max" (1/10) 2000

/-- C6: for every input that is neither a URL string (a non-URL string
included), nor bytes, nor a buffer, nor a supported image object, both
chain variants' `process_image` fail during normalization: they return a
tagged error record carrying an error message and issue no recognition
or analysis call at all. -/
theorem C6_unsupported_input (env : Env) (d : ImageData)
    (h : (∃ t, d = ImageData.other t) ∨
         (∃ s, d = ImageData.str s ∧ isSupportedUrl s = false)) :
    ((Chains.process_image env d).1.status = "error" ∧
     (Chains.process_image env d).1.error.isSome = true ∧
     (Chains.process_image env d).2 = []) ∧
    ((Chat2Table.process_image env d).1.status = "error" ∧
     (Chat2Table.process_image env d).1.error.isSome = true ∧
     (Chat2Table.process_image env d).2 = []) := by
  rcases h with ⟨t, rfl⟩ | ⟨s, rfl, hs⟩
  · exact ⟨⟨rfl, rfl, rfl⟩, ⟨rfl, rfl, rfl⟩⟩
  · have hns : ¬ (isSupportedUrl s = true) := by simp [hs]
    have h1 : Chains.normalize env (ImageData.str s) =
        .error ("不支持的URL格式: " ++ s) := by
      simp only [Chains.normalize]
      rw [if_neg hns]
    have h2 : Chat2Table.convert_to_bytes env (ImageData.str s) =
        .error ("不支持的URL格式: " ++ s) := by
      simp only [Chat2Table.convert_to_bytes]
      rw [if_neg hns]
    constructor
    · unfold Chains.process_image
      rw [h1]
      exact ⟨rfl, rfl, rfl⟩
    · unfold Chat2Table.process_image
      rw [h2]
      exact ⟨rfl, rfl, rfl⟩

/-- C6 witness: a Python `dict` passed as image input. -/
theorem C6_witness :
    ((Chains.process_image envOK (ImageData.other "<class 'dict'>")).1.status = "error" ∧
     (Chains.process_image envOK (ImageData.other "<class 'dict'>")).1.error.isSome = true ∧
     (Chains.process_image envOK (ImageData.other "<class 'dict'>")).2 = []) ∧
    ((Chat2Table.process_image envOK (ImageData.other "<class 'dict'>")).1.status = "error" ∧
     (Chat2Table.process_image envOK (ImageData.other "<class 'dict'>")).1.error.isSome = true ∧
     (Chat2Table.process_image envOK (ImageData.other "<class 'dict'>")).2 = []) :=
  C6_unsupported_input envOK (ImageData.other "<class 'dict'>")
    (Or.inl ⟨"<class 'dict'>", rfl⟩)

/-- C7: the claim as stated fails on the cited `run.py` `save_result`:
its `except` clause logs and RE-RAISES, so when creating the output
directory raises the exception escapes to the caller instead of being
converted into a structured error result. -/
theorem C7_save_result_counterexample :
    RunPy.save_result failingFs 1700000000 { status := "success" } "output" "json" =
      .error "[Errno 13] Permission denied: 'output'" :=
  rfl

/-- C7 (amended): the processing operations — both variants'
`process_image` and `process_multiple_images`, and `main.py`'s
`process_local_image` — catch every exception and return a structured
status-tagged result; `run.py`'s `save_result`, however, re-raises, so a
file-save exception does escape to its caller. -/
theorem C7_exception_conversion (env : Env) (fs : Fs) (d : ImageData)
    (inputs : List ImageData) (li : LocalImageInput) (pn : Option Nat)
    (st : Bool) (r : ResultDict) (now : Nat) (dir fmt e : String)
    (hmk : fs.makedirs dir = .error e) :
    wellTagged (Chains.process_image env d st).1 ∧
    wellTagged (Chains.process_multiple_images env inputs st).1 ∧
    wellTagged (Chat2Table.process_image env d st).1 ∧
    wellTagged (Chat2Table.process_multiple_images env inputs st).1 ∧
    wellTagged (MainPy.process_local_image env fs li pn st).1 ∧
    RunPy.save_result fs now r dir fmt = .error e := by
  refine ⟨wellTagged_chains_process_image env d st,
    wellTagged_chains_process_multiple env inputs st,
    wellTagged_c2t_process_image env d st,
    wellTagged_c2t_process_multiple env inputs st,
    wellTagged_process_local_image env fs li pn st, ?_⟩
  unfold RunPy.save_result
  rw [hmk]

/-- C7 witness: concrete inputs, with a filesystem whose `makedirs`
raises. -/
theorem C7_witness :
    wellTagged (Chains.process_image envOK (ImageData.bytes [1]) false).1 ∧
    wellTagged (Chains.process_multiple_images envOK [ImageData.bytes [1]] false).1 ∧
    wellTagged (Chat2Table.process_image envOK (ImageData.bytes [1]) false).1 ∧
    wellTagged (Chat2Table.process_multiple_images envOK [ImageData.bytes [1]] false).1 ∧
    wellTagged (MainPy.process_local_image envOK failingFs
      (LocalImageInput.path "input/a.jpg") none false).1 ∧
    RunPy.save_result failingFs 1700000000 { status := "success" } "output" "json" =
      .error "[Errno 13] Permission denied: 'output'" :=
  C7_exception_conversion envOK failingFs (ImageData.bytes [1])
    [ImageData.bytes [1]] (LocalImageInput.path "input/a.jpg") none false
    { status := "success" } 1700000000 "output" "json"
    "[Errno 13] Permission denied: 'output'" rfl

/-- C8: under the provider contract that the stream chunks' non-null
deltas concatenate to the full response (and the same deterministic
response on both paths), `ImageRecognizer.recognize_image` in stream mode
returns exactly the text that the non-stream call returns in its
`content` field — streaming only changes how the one response is
consumed.  In the two chain variants the `stream` flag is ignored
entirely, so their results are identical for any flag value. -/
theorem C8_stream_refinement (fs : RecFs) (p : RecProvider)
    (model ip : String) (prompt : Option String) (bs : Bytes)
    (resp : String) (chunks : List (Option String))
    (hex : fs.pathExists ip = true)
    (hrd : fs.read ip = .ok bs)
    (hfull : p.complete (base64Encode bs) (prompt.getD Recognizer.default_prompt) = .ok resp)
    (hstr : p.completeStream (base64Encode bs) (prompt.getD Recognizer.default_prompt) = .ok chunks)
    (hprov : joinStrings (chunks.filterMap id) = resp) :
    Recognizer.recognize_image fs p model ip prompt true = .streamed resp ∧
    Recognizer.recognize_image fs p model ip prompt false =
      .result { status := "success", image_path := ip,
                content := some resp, model := some model } ∧
    (∀ (env : Env) (d : ImageData) (s1 s2 : Bool),
      Chains.process_image env d s1 = Chains.process_image env d s2 ∧
      Chat2Table.process_image env d s1 = Chat2Table.process_image env d s2) := by
  refine ⟨?_, ?_, fun env d s1 s2 => ⟨rfl, rfl⟩⟩
  · unfold Recognizer.recognize_image
    rw [hex]
    simp only [Bool.not_true, Bool.false_eq_true, if_false]
    rw [hrd]
    dsimp only
    rw [if_pos trivial, hstr]
    dsimp only
    rw [streamConcat_eq_join, hprov]
  · unfold Recognizer.recognize_image
    rw [hex]
    simp only [Bool.not_true, Bool.false_eq_true, if_false]
    rw [hrd]
    dsimp only
    rw [hfull]

/-- C8 witness: a concrete provider streaming `"hello"`, a null delta,
and `" world"`. -/
theorem C8_witness :
    Recognizer.recognize_image recFsOK recProviderOK "qwen-vl-max"
      "input/image.jpg" none true = .streamed "hello world" ∧
    Recognizer.recognize_image recFsOK recProviderOK "qwen-vl-max"
      "input/image.jpg" none false =
      .result { status := "success", image_path := "input/image.jpg",
                content := some "hello world", model := some "qwen-vl-max" } ∧
    (∀ (env : Env) (d : ImageData) (s1 s2 : Bool),
      Chains.process_image env d s1 = Chains.process_image env d s2 ∧
      Chat2Table.process_image env d s1 = Chat2Table.process_image env d s2) :=
  C8_stream_refinement recFsOK recProviderOK "qwen-vl-max" "input/image.jpg"
    none [1, 2, 3] "hello world" [some "hello", none, some " world"]
    rfl rfl rfl rfl rfl

/-- C9: for a PDF whose rasterization yields K page images, both
`convert_pdf_to_images` variants return exactly K pairs, carrying page
numbers 1..K in page order and the page images themselves (PNG-encoded
in `run.py`, decoded objects in `main.py`); and a page image handed to
`main.py`'s `process_local_image` outside batch mode is processed as one
independent `process_image` input (its call trace is exactly that of the
single-image invocation on the page's PNG buffer). -/
theorem C9_pdf_pages (pe : PdfEnv) (path : String) (images : List PILImage)
    (h : pe.convert_from_path path = .ok images) :
    (∃ pairs, RunPy.convert_pdf_to_images pe path = .ok pairs ∧
      pairs.length = images.length ∧
      pairs.map Prod.snd = List.range' 1 images.length ∧
      pairs.map Prod.fst = images.map PILImage.png) ∧
    (∃ pairs, MainPy.convert_pdf_to_images pe path = .ok pairs ∧
      pairs.length = images.length ∧
      pairs.map Prod.snd = List.range' 1 images.length ∧
      pairs.map Prod.fst = images.map id) ∧
    (∀ (env : Env) (fs : Fs) (img : PILImage) (k : Nat) (st : Bool),
      (MainPy.process_local_image env fs (.image img) (some k) st).2 =
        (Chains.process_image env (.buffer img.png) st).2) := by
  refine ⟨⟨pairWithPages PILImage.png 0 images, ?_,
           pairWithPages_length PILImage.png 0 images,
           pairWithPages_map_snd PILImage.png 0 images,
           pairWithPages_map_fst PILImage.png 0 images⟩,
          ⟨pairWithPages id 0 images, ?_,
           pairWithPages_length id 0 images,
           pairWithPages_map_snd id 0 images,
           pairWithPages_map_fst id 0 images⟩,
          ?_⟩
  · unfold RunPy.convert_pdf_to_images
    rw [h]
  · unfold MainPy.convert_pdf_to_images
    rw [h]
  · intro env fs img k st
    unfold MainPy.process_local_image
    dsimp only
    exact wrapResult_trace (Chains.process_image env (.buffer img.png) st) (some k)

/-- C9 witness: a concrete two-page PDF. -/
theorem C9_witness :
    (∃ pairs, RunPy.convert_pdf_to_images pdfEnvOK "input/doc.pdf" = .ok pairs ∧
      pairs.length = ([⟨[1], [2]⟩, ⟨[3], [4]⟩] : List PILImage).length ∧
      pairs.map Prod.snd = List.range' 1 ([⟨[1], [2]⟩, ⟨[3], [4]⟩] : List PILImage).length ∧
      pairs.map Prod.fst = ([⟨[1], [2]⟩, ⟨[3], [4]⟩] : List PILImage).map PILImage.png) ∧
    (∃ pairs, MainPy.convert_pdf_to_images pdfEnvOK "input/doc.pdf" = .ok pairs ∧
      pairs.length = ([⟨[1], [2]⟩, ⟨[3], [4]⟩] : List PILImage).length ∧
      pairs.map Prod.snd = List.range' 1 ([⟨[1], [2]⟩, ⟨[3], [4]⟩] : List PILImage).length ∧
      pairs.map Prod.fst = ([⟨[1], [2]⟩, ⟨[3], [4]⟩] : List PILImage).map id) ∧
    (∀ (env : Env) (fs : Fs) (img : PILImage) (k : Nat) (st : Bool),
      (MainPy.process_local_image env fs (.image img) (some k) st).2 =
        (Chains.process_image env (.buffer img.png) st).2) :=
  C9_pdf_pages pdfEnvOK "input/doc.pdf" [⟨[1], [2]⟩, ⟨[3], [4]⟩] rfl

/-- C10: every record returned by `process_image` and
`process_multiple_images` (either variant, any input, any oracle
behaviour) has status `"success"` or `"error"`; an error record carries
an `error` message, and a success record carries both a
`recognition_result` and an `analysis_result`. -/
theorem C10_result_invariant (env : Env) (d : ImageData)
    (inputs : List ImageData) (st : Bool) :
    wellTagged (Chains.process_image env d st).1 ∧
    wellTagged (Chains.process_multiple_images env inputs st).1 ∧
    wellTagged (Chat2Table.process_image env d st).1 ∧
    wellTagged (Chat2Table.process_multiple_images env inputs st).1 :=
  ⟨wellTagged_chains_process_image env d st,
   wellTagged_chains_process_multiple env inputs st,
   wellTagged_c2t_process_image env d st,
   wellTagged_c2t_process_multiple env inputs st⟩

/-- C10 witness: a successful single-image run carries both stage
outputs; a failing one carries an error message. -/
theorem C10_witness :
    (Chains.process_image envOK (ImageData.bytes [1]) false).1.recognition_result.isSome = true ∧
    (Chains.process_image envOK (ImageData.bytes [1]) false).1.analysis_result.isSome = true ∧
    (Chat2Table.process_image envOK (ImageData.other "<class 'int'>") false).1.error.isSome = true := by
  have h1 := (C10_result_invariant envOK (ImageData.bytes [1]) [] false).1
  have h2 := (C10_result_invariant envOK (ImageData.other "<class 'int'>") [] false).2.2.1
  exact ⟨(h1.2.2 rfl).1, (h1.2.2 rfl).2, h2.2.1 rfl⟩

-- Concrete sanity checks that the json.loads and base64 models compute
-- as CPython does on small inputs.
example : jsonLoads "null" = some .null := rfl
example : jsonLoads "  [1, 2.5, -3e2] " = some (.arr [.num "1", .num "2.5", .num "-3e2"]) := rfl
example : jsonLoads "\x7b\"a\": 1, \"b\": [true, false, \"x\"]\x7d" =
    some (.obj [("a", .num "1"), ("b", .arr [.bool true, .bool false, .str "x"])]) := rfl
example : jsonLoads "not json" = none := rfl
example : jsonLoads "" = none := rfl
example : jsonLoads "\x7b\x7d" = some (.obj []) := rfl
example : jsonLoads "[]" = some (.arr []) := rfl
example : jsonLoads "\"a\\nb\\u0041\"" = some (.str "a\nbA") := rfl
example : jsonLoads "1" = some (.num "1") := rfl
example : jsonLoads "01" = none := rfl
example : jsonLoads "[1,]" = none := rfl
example : jsonLoads "NaN" = some (.num "NaN") := rfl
example : jsonLoads "-Infinity" = some (.num "-Infinity") := rfl
example : jsonLoads "\x7b\"a\": \x7b\"b\": [[]]\x7d\x7d" = some (.obj [("a", .obj [("b", .arr [.arr []])])]) := rfl
example : parse_analysis_result "xyz" = .obj [("raw_result", .str "xyz")] := rfl
example : base64Encode [0, 1] = "AAE=" := rfl
example : base64Encode [77, 97, 110] = "TWFu" := rfl
example : base64Encode [255] = "/w==" := rfl
